import Mathlib

/-!
Shallow embedding of `src/clone_launch_config.py`, a one-shot CLI that
clones an AWS launch configuration: it parses CLI overrides, checks the
environment, connects, fetches the source launch configuration by name,
merges it with the overrides, and creates the new launch configuration.

Python `None` sentinels become `Option`; `sys.exit` / argparse errors
become `Except` error values; the two network results (fetch, create) and
the filesystem are passed in explicitly so the orchestration in `main`
is a pure function that also records the trace of external actions.
-/

namespace CloneLC

/-- The launch-configuration record, with the eleven fields that
`merge_lcs` reads and writes (the shape used by the program via boto's
`LaunchConfiguration`; optional fields are those boto treats as
optional). -/
structure LaunchConfiguration where
  name : String
  image_id : String
  key_name : Option String
  security_groups : List String
  user_data : Option String
  instance_type : String
  instance_monitoring : Bool
  spot_price : Option Rat
  instance_profile_name : Option String
  ebs_optimized : Bool
  associate_public_ip_address : Option Bool
  deriving Repr, DecidableEq

/-- The process environment as the program reads it: the three AWS shell
variables named in the module docstring, each present or absent. -/
structure Env where
  AWS_DEFAULT_REGION : Option String
  AWS_ACCESS_KEY_ID : Option String
  AWS_SECRET_ACCESS_KEY : Option String
  deriving Repr, DecidableEq

/-- The namespace produced by `parse_cli`: one slot per CLI option, `none`
when the option was not passed (argparse `default=None`), plus the two
positional names and the region.  Field names follow the `dest=` names in
the source, which are the boto keyword names. -/
structure Args where
  old_lc_name : String
  new_lc_name : String
  image_id : Option String
  key_name : Option String
  security_groups : Option (List String)
  user_data : Option String
  instance_type : Option String
  instance_monitoring : Option Bool
  spot_price : Option Rat
  instance_profile_name : Option String
  ebs_optimized : Option Bool
  associate_public_ip_address : Option Bool
  region : String
  deriving Repr, DecidableEq

/-- One occurrence of an optional CLI flag, in command-line order.
Constructors are named after the flags in `parse_cli`; flags taking a
value carry the raw token (`spot_price` carries the raw string, converted
by argparse `type=float`; `user_data_script` carries the path, converted
by `parse_user_data`). -/
inductive CliTok where
  | ami (v : String)
  | ssh_key (v : String)
  | security_group (v : String)
  | user_data_script (p : String)
  | instance_type (v : String)
  | enable_instance_monitoring
  | disable_instance_monitoring
  | spot_price (s : String)
  | instance_profile_name (v : String)
  | enable_ebs_optimized
  | disable_ebs_optimized
  | enable_associate_public_ip_address
  | disable_associate_public_ip_address
  | region (v : String)
  deriving Repr, DecidableEq

/-- The ways CLI construction/parsing terminates the process before any
network activity: the `--region` default raising `KeyError` when
`AWS_DEFAULT_REGION` is unset, `parse_user_data` exiting on a missing
file, and argparse rejecting a `--spot-price` value that `float()` cannot
convert. -/
inductive CliError where
  | missingRegionEnv
  | fileNotFound
  | invalidSpotPrice
  deriving Repr, DecidableEq

/-- Digit string to number, as positional decimal. -/
def digitsVal (cs : List Char) : Nat :=
  cs.foldl (fun a c => a * 10 + (c.toNat - 48)) 0

/-- Unsigned decimal literal: digits, optionally a dot and more digits,
with at least one digit overall (accepts `12`, `12.5`, `12.`, `.5`). -/
def parseUnsigned (cs : List Char) : Option Rat :=
  let intPart := cs.takeWhile Char.isDigit
  let rest := cs.dropWhile Char.isDigit
  match rest with
  | [] => if intPart.isEmpty then none else some (digitsVal intPart : Rat)
  | '.' :: frac =>
      if frac.all Char.isDigit && (!intPart.isEmpty || !frac.isEmpty) then
        some ((digitsVal intPart : Rat) + (digitsVal frac : Rat) / ((10 : Rat) ^ frac.length))
      else none
  | _ => none

/-- Python `float()` on a plain decimal literal with optional sign: the
conversion argparse applies to `--spot-price`.  Any string it converts is
stored as-is; there is no sign restriction in `float()` itself.  (Python
additionally accepts exponents, `inf`/`nan` and surrounding whitespace,
which no claim here depends on.) -/
def parseFloat (s : String) : Option Rat :=
  match s.toList with
  | '-' :: rest => (parseUnsigned rest).map (fun q => -q)
  | '+' :: rest => parseUnsigned rest
  | cs => parseUnsigned cs

/-- The argparse namespace before any optional flag is seen: every
`dest` holds its `default=None`, the region holds the `--region` default
(read from `AWS_DEFAULT_REGION` at parser-construction time). -/
def initArgs (oldName newName reg : String) : Args :=
  { old_lc_name := oldName
    new_lc_name := newName
    image_id := none
    key_name := none
    security_groups := none
    user_data := none
    instance_type := none
    instance_monitoring := none
    spot_price := none
    instance_profile_name := none
    ebs_optimized := none
    associate_public_ip_address := none
    region := reg }

/-- Processing of one optional flag, left to right as argparse stores
them: `store` overwrites, `append` (for `--security-group`) appends,
`store_const` (the enable/disable pairs) overwrites the shared `dest`
with its constant, `type=` converters run here and can abort. `fs` is
the filesystem seen by `parse_user_data`. -/
def stepTok (fs : String → Option String) (a : Args) (t : CliTok) : Except CliError Args :=
  match t with
  | .ami v => .ok { a with image_id := some v }
  | .ssh_key v => .ok { a with key_name := some v }
  | .security_group v =>
      .ok { a with security_groups := some ((a.security_groups.getD []) ++ [v]) }
  | .user_data_script p =>
      match fs p with
      | none => .error .fileNotFound
      | some content => .ok { a with user_data := some content }
  | .instance_type v => .ok { a with instance_type := some v }
  | .enable_instance_monitoring => .ok { a with instance_monitoring := some true }
  | .disable_instance_monitoring => .ok { a with instance_monitoring := some false }
  | .spot_price s =>
      match parseFloat s with
      | none => .error .invalidSpotPrice
      | some q => .ok { a with spot_price := some q }
  | .instance_profile_name v => .ok { a with instance_profile_name := some v }
  | .enable_ebs_optimized => .ok { a with ebs_optimized := some true }
  | .disable_ebs_optimized => .ok { a with ebs_optimized := some false }
  | .enable_associate_public_ip_address =>
      .ok { a with associate_public_ip_address := some true }
  | .disable_associate_public_ip_address =>
      .ok { a with associate_public_ip_address := some false }
  | .region v => .ok { a with region := v }

/-- `parse_cli`: building the parser evaluates
`os.environ['AWS_DEFAULT_REGION']` for the `--region` default, so an
unset region variable raises `KeyError` before any flag is looked at;
then the optional flags are processed in command-line order. -/
def parse_cli (env : Env) (oldName newName : String) (fs : String → Option String)
    (toks : List CliTok) : Except CliError Args :=
  match env.AWS_DEFAULT_REGION with
  | none => .error .missingRegionEnv
  | some reg => toks.foldlM (stepTok fs) (initArgs oldName newName reg)

/-- `merge_lcs`: each field of the new launch configuration is the old
one's value when the corresponding CLI slot `is None`, else the CLI
value; the name is the new name unconditionally. -/
def merge_lcs (old_lc : LaunchConfiguration) (args : Args) : LaunchConfiguration :=
  { name := args.new_lc_name
    image_id := match args.image_id with
      | none => old_lc.image_id
      | some v => v
    key_name := match args.key_name with
      | none => old_lc.key_name
      | some v => some v
    security_groups := match args.security_groups with
      | none => old_lc.security_groups
      | some v => v
    user_data := match args.user_data with
      | none => old_lc.user_data
      | some v => some v
    instance_type := match args.instance_type with
      | none => old_lc.instance_type
      | some v => v
    instance_monitoring := match args.instance_monitoring with
      | none => old_lc.instance_monitoring
      | some v => v
    spot_price := match args.spot_price with
      | none => old_lc.spot_price
      | some v => some v
    instance_profile_name := match args.instance_profile_name with
      | none => old_lc.instance_profile_name
      | some v => some v
    ebs_optimized := match args.ebs_optimized with
      | none => old_lc.ebs_optimized
      | some v => v
    associate_public_ip_address := match args.associate_public_ip_address with
      | none => old_lc.associate_public_ip_address
      | some v => some v }

/-- `pre_check`: reads `os.environ['AWS_DEFAULT_REGION']` and exits on
`KeyError`.  It reads nothing else: the two credential variables are not
consulted here. -/
def pre_check (env : Env) : Except Unit Unit :=
  match env.AWS_DEFAULT_REGION with
  | none => .error ()
  | some _ => .ok ()

/-- `get_lc`: `conn.get_all_launch_configurations(names=[old])[0]` inside
a bare `try/except` with `sys.exit` — a transport failure or an empty
result (an `IndexError` from `[0]`) is fatal, while a list with several
matches yields its first element with no error. -/
def get_lc (fetchResult : Except Unit (List LaunchConfiguration)) :
    Except Unit LaunchConfiguration :=
  match fetchResult with
  | .error _ => .error ()
  | .ok [] => .error ()
  | .ok (lc :: _) => .ok lc

/-- How one program run terminates: normally, or at one of the five
`sys.exit` sites (pre-check, CLI parsing, connect, fetch, create), each
of which exits the process with a non-zero status. -/
inductive Outcome where
  | success
  | configError
  | cliError (e : CliError)
  | connectError
  | fetchError
  | createError
  deriving Repr, DecidableEq

/-- The external calls a run can make, in order of the code. -/
inductive Action where
  | connect
  | fetch
  | create
  deriving Repr, DecidableEq

/-- `main`: `pre_check`; `parse_cli`; `botoconn`; `get_lc`; `merge_lcs`;
`create_lc` — strictly in that order, each `sys.exit` aborting the rest.
The results of the three external calls are inputs; the returned list is
the trace of external calls actually made before termination. -/
def main (env : Env) (oldName newName : String) (fs : String → Option String)
    (toks : List CliTok)
    (connectResult : Except Unit Unit)
    (fetchResult : Except Unit (List LaunchConfiguration))
    (createResult : LaunchConfiguration → Except Unit Unit) :
    Outcome × List Action :=
  match pre_check env with
  | .error _ => (.configError, [])
  | .ok _ =>
    match parse_cli env oldName newName fs toks with
    | .error e => (.cliError e, [])
    | .ok args =>
      match connectResult with
      | .error _ => (.connectError, [.connect])
      | .ok _ =>
        match get_lc fetchResult with
        | .error _ => (.fetchError, [.connect, .fetch])
        | .ok old_lc =>
          match createResult (merge_lcs old_lc args) with
          | .error _ => (.createError, [.connect, .fetch, .create])
          | .ok _ => (.success, [.connect, .fetch, .create])

end CloneLC

namespace CloneLC

/-- A concrete source launch configuration used as a test fixture. -/
def lcA : LaunchConfiguration :=
  { name := "lc-v1"
    image_id := "ami-111"
    key_name := some "k1"
    security_groups := ["sg-a"]
    user_data := none
    instance_type := "t2.micro"
    instance_monitoring := true
    spot_price := none
    instance_profile_name := none
    ebs_optimized := false
    associate_public_ip_address := none }

/-- A second, distinct launch configuration fixture. -/
def lcB : LaunchConfiguration :=
  { lcA with name := "lc-x", image_id := "ami-333" }

/-- A parsed namespace with no optional flag passed. -/
def argsUnset : Args := initArgs "lc-v1" "lc-v2" "us-east-1"

/-- A parsed namespace where only `--ami ami-222` was passed. -/
def argsAmi : Args := { argsUnset with image_id := some "ami-222" }

/-- A parsed namespace where only `--disable-instance-monitoring` was passed. -/
def argsMonOff : Args := { argsUnset with instance_monitoring := some false }

/-- An environment with all three AWS variables set. -/
def envFull : Env :=
  { AWS_DEFAULT_REGION := some "us-east-1"
    AWS_ACCESS_KEY_ID := some "AKIAEXAMPLE"
    AWS_SECRET_ACCESS_KEY := some "secretkey" }

/-- An environment with the region set but both credential variables absent. -/
def envNoCreds : Env :=
  { AWS_DEFAULT_REGION := some "us-east-1"
    AWS_ACCESS_KEY_ID := none
    AWS_SECRET_ACCESS_KEY := none }

/-- An environment with both credentials set but `AWS_DEFAULT_REGION` absent. -/
def envNoRegion : Env :=
  { AWS_DEFAULT_REGION := none
    AWS_ACCESS_KEY_ID := some "AKIAEXAMPLE"
    AWS_SECRET_ACCESS_KEY := some "secretkey" }

/-- A filesystem with no readable files. -/
def fsEmpty : String → Option String := fun _ => none

/-- C1: for every source, override set and new name, each field other than
the name of the merged launch configuration equals the override slot's
value when that slot is explicit, and the source's value when the slot is
unset; `merge_lcs` is total, so every field is resolved. -/
theorem merge_lcs_explicit_else_source (old_lc : LaunchConfiguration) (args : Args) :
    ((∀ v, args.image_id = some v → (merge_lcs old_lc args).image_id = v) ∧
     (args.image_id = none → (merge_lcs old_lc args).image_id = old_lc.image_id)) ∧
    ((∀ v, args.key_name = some v → (merge_lcs old_lc args).key_name = some v) ∧
     (args.key_name = none → (merge_lcs old_lc args).key_name = old_lc.key_name)) ∧
    ((∀ v, args.security_groups = some v → (merge_lcs old_lc args).security_groups = v) ∧
     (args.security_groups = none →
       (merge_lcs old_lc args).security_groups = old_lc.security_groups)) ∧
    ((∀ v, args.user_data = some v → (merge_lcs old_lc args).user_data = some v) ∧
     (args.user_data = none → (merge_lcs old_lc args).user_data = old_lc.user_data)) ∧
    ((∀ v, args.instance_type = some v → (merge_lcs old_lc args).instance_type = v) ∧
     (args.instance_type = none →
       (merge_lcs old_lc args).instance_type = old_lc.instance_type)) ∧
    ((∀ v, args.instance_monitoring = some v →
       (merge_lcs old_lc args).instance_monitoring = v) ∧
     (args.instance_monitoring = none →
       (merge_lcs old_lc args).instance_monitoring = old_lc.instance_monitoring)) ∧
    ((∀ v, args.spot_price = some v → (merge_lcs old_lc args).spot_price = some v) ∧
     (args.spot_price = none → (merge_lcs old_lc args).spot_price = old_lc.spot_price)) ∧
    ((∀ v, args.instance_profile_name = some v →
       (merge_lcs old_lc args).instance_profile_name = some v) ∧
     (args.instance_profile_name = none →
       (merge_lcs old_lc args).instance_profile_name = old_lc.instance_profile_name)) ∧
    ((∀ v, args.ebs_optimized = some v → (merge_lcs old_lc args).ebs_optimized = v) ∧
     (args.ebs_optimized = none →
       (merge_lcs old_lc args).ebs_optimized = old_lc.ebs_optimized)) ∧
    ((∀ v, args.associate_public_ip_address = some v →
       (merge_lcs old_lc args).associate_public_ip_address = some v) ∧
     (args.associate_public_ip_address = none →
       (merge_lcs old_lc args).associate_public_ip_address =
         old_lc.associate_public_ip_address)) := by
  refine ⟨⟨?_, ?_⟩, ⟨?_, ?_⟩, ⟨?_, ?_⟩, ⟨?_, ?_⟩, ⟨?_, ?_⟩, ⟨?_, ?_⟩, ⟨?_, ?_⟩,
    ⟨?_, ?_⟩, ⟨?_, ?_⟩, ⟨?_, ?_⟩⟩ <;>
    first
      | (intro v h; simp [merge_lcs, h])
      | (intro h; simp [merge_lcs, h])

/-- Witness for C1: cloning `lcA` with only `--ami ami-222` overridden
takes the explicit AMI and inherits the instance type. -/
theorem merge_lcs_explicit_else_source_witness :
    (merge_lcs lcA argsAmi).image_id = "ami-222" ∧
    (merge_lcs lcA argsAmi).instance_type = lcA.instance_type :=
  ⟨(merge_lcs_explicit_else_source lcA argsAmi).1.1 "ami-222" rfl,
   (merge_lcs_explicit_else_source lcA argsAmi).2.2.2.2.1.2 rfl⟩

/-- C2: an explicit `false` monitoring override is never collapsed into
"unset": merging a source whose monitoring is on with an override slot
holding explicit `false` yields monitoring off. -/
theorem merge_lcs_explicit_false_preserved (old_lc : LaunchConfiguration) (args : Args)
    (hold : old_lc.instance_monitoring = true)
    (hovr : args.instance_monitoring = some false) :
    (merge_lcs old_lc args).instance_monitoring = false := by
  simp [merge_lcs, hovr]

/-- Witness for C2 at the fixture: `lcA` has monitoring on and
`--disable-instance-monitoring` turns it off in the merge. -/
theorem merge_lcs_explicit_false_preserved_witness :
    lcA.instance_monitoring = true ∧
    (merge_lcs lcA argsMonOff).instance_monitoring = false :=
  ⟨rfl, merge_lcs_explicit_false_preserved lcA argsMonOff rfl rfl⟩

/-- C3: the merged launch configuration's name is the operator-supplied
new name for every source and override set, and is never the source's
name when the two differ. -/
theorem merge_lcs_name_is_new_name (old_lc : LaunchConfiguration) (args : Args) :
    (merge_lcs old_lc args).name = args.new_lc_name ∧
    (args.new_lc_name ≠ old_lc.name → (merge_lcs old_lc args).name ≠ old_lc.name) :=
  ⟨rfl, fun h => by simpa [merge_lcs] using h⟩

/-- Witness for C3 at the fixture: the clone of `lc-v1` as `lc-v2` is
named `lc-v2`, not `lc-v1`. -/
theorem merge_lcs_name_is_new_name_witness :
    (merge_lcs lcA argsUnset).name = "lc-v2" ∧ (merge_lcs lcA argsUnset).name ≠ lcA.name :=
  ⟨(merge_lcs_name_is_new_name lcA argsUnset).1,
   (merge_lcs_name_is_new_name lcA argsUnset).2 (by decide)⟩

/-- C4: merging with the all-unset override set (no option passed) is the
identity on every field except the name. -/
theorem merge_lcs_all_unset_identity (old_lc : LaunchConfiguration) (args : Args)
    (h1 : args.image_id = none) (h2 : args.key_name = none)
    (h3 : args.security_groups = none) (h4 : args.user_data = none)
    (h5 : args.instance_type = none) (h6 : args.instance_monitoring = none)
    (h7 : args.spot_price = none) (h8 : args.instance_profile_name = none)
    (h9 : args.ebs_optimized = none) (h10 : args.associate_public_ip_address = none) :
    merge_lcs old_lc args = { old_lc with name := args.new_lc_name } := by
  cases old_lc
  simp [merge_lcs, h1, h2, h3, h4, h5, h6, h7, h8, h9, h10]

/-- Witness for C4 at the fixture: cloning `lcA` with no overrides changes
only the name. -/
theorem merge_lcs_all_unset_identity_witness :
    merge_lcs lcA argsUnset = { lcA with name := "lc-v2" } :=
  merge_lcs_all_unset_identity lcA argsUnset rfl rfl rfl rfl rfl rfl rfl rfl rfl rfl

end CloneLC

namespace CloneLC

/-- The parsed namespace after only `--spot-price -1.5`. -/
def argsSpotNeg : Args :=
  { initArgs "lc-v1" "lc-v2" "us-east-1" with spot_price := some (-(3/2 : Rat)) }

/-- Counterexample to C5: `--spot-price -1.5` is converted by `float()`
and stored with no sign check, so a negative spot price is accepted into
the override set instead of failing. -/
theorem spot_price_negative_accepted :
    parse_cli envFull "lc-v1" "lc-v2" fsEmpty [CliTok.spot_price "-1.5"] =
      Except.ok argsSpotNeg ∧
    argsSpotNeg.spot_price = some (-(3/2 : Rat)) ∧ (-(3/2 : Rat)) < 0 := by
  refine ⟨?_, rfl, by norm_num⟩
  simp [parse_cli, envFull, List.foldlM, stepTok, parseFloat, parseUnsigned, digitsVal,
    String.toList, argsSpotNeg, initArgs]
  norm_num

/-- C5 amended: a `--spot-price` value that `float()` cannot convert
aborts the run before any network action, but any convertible value —
negative ones included — is accepted into the override set: there is no
non-negativity check. -/
theorem spot_price_validation_amended (env : Env) (reg oldName newName : String)
    (fs : String → Option String) (s : String) (suf : List CliTok)
    (hreg : env.AWS_DEFAULT_REGION = some reg) :
    (parseFloat s = none →
      parse_cli env oldName newName fs (CliTok.spot_price s :: suf) =
        Except.error CliError.invalidSpotPrice ∧
      ∀ cr fr crr, main env oldName newName fs (CliTok.spot_price s :: suf) cr fr crr =
        (Outcome.cliError CliError.invalidSpotPrice, [])) ∧
    (∀ q, parseFloat s = some q →
      parse_cli env oldName newName fs [CliTok.spot_price s] =
        Except.ok { initArgs oldName newName reg with spot_price := some q }) := by
  constructor
  · intro hs
    have hp : parse_cli env oldName newName fs (CliTok.spot_price s :: suf) =
        Except.error CliError.invalidSpotPrice := by
      simp only [parse_cli, hreg, List.foldlM, stepTok, hs]
      rfl
    refine ⟨hp, fun cr fr crr => ?_⟩
    simp [main, pre_check, hreg, hp]
  · intro q hq
    simp [parse_cli, hreg, List.foldlM, stepTok, hq]

/-- Witness for the amended C5: `abc` is rejected before any network
action, and `-1.5` is accepted. -/
theorem spot_price_validation_amended_witness :
    parse_cli envFull "lc-v1" "lc-v2" fsEmpty [CliTok.spot_price "abc"] =
      Except.error CliError.invalidSpotPrice ∧
    parse_cli envFull "lc-v1" "lc-v2" fsEmpty [CliTok.spot_price "-1.5"] =
      Except.ok { initArgs "lc-v1" "lc-v2" "us-east-1" with
        spot_price := some (-(3/2 : Rat)) } :=
  ⟨((spot_price_validation_amended envFull "us-east-1" "lc-v1" "lc-v2" fsEmpty "abc" []
      rfl).1 (by simp [parseFloat, parseUnsigned, String.toList])).1,
   (spot_price_validation_amended envFull "us-east-1" "lc-v1" "lc-v2" fsEmpty "-1.5" []
      rfl).2 (-(3/2 : Rat))
      (by simp [parseFloat, parseUnsigned, digitsVal, String.toList]; norm_num)⟩

/-- Counterexample to C6: a fetch result holding two launch
configurations is not reported as an error — `[0]` silently takes the
first match. -/
theorem get_lc_multiple_matches_not_error :
    get_lc (Except.ok [lcA, lcB]) = Except.ok lcA ∧
    get_lc (Except.ok [lcA, lcB]) ≠ Except.error () :=
  ⟨rfl, by simp [get_lc]⟩

/-- C6 amended: a transport failure or an empty fetch result is each a
fatal fetch error, while a result with one or more matches silently
yields the first match. -/
theorem get_lc_zero_or_transport_fatal :
    get_lc (Except.error ()) = Except.error () ∧
    get_lc (Except.ok []) = Except.error () ∧
    ∀ (lc : LaunchConfiguration) (rest : List LaunchConfiguration),
      get_lc (Except.ok (lc :: rest)) = Except.ok lc :=
  ⟨rfl, rfl, fun _ _ => rfl⟩

/-- Counterexample to C7: with the region variable set and both
credential variables absent, `pre_check` succeeds — the credentials are
not examined before network activity. -/
theorem pre_check_ignores_credentials :
    envNoCreds.AWS_ACCESS_KEY_ID = none ∧
    envNoCreds.AWS_SECRET_ACCESS_KEY = none ∧
    pre_check envNoCreds = Except.ok () :=
  ⟨rfl, rfl, rfl⟩

/-- C7 amended: only `AWS_DEFAULT_REGION` is checked pre-network — its
absence is fatal before any external action, while the two credential
variables never influence `pre_check`. -/
theorem pre_check_region_only (env : Env) :
    (env.AWS_DEFAULT_REGION = none →
      pre_check env = Except.error () ∧
      ∀ oldName newName fs toks cr fr crr,
        main env oldName newName fs toks cr fr crr = (Outcome.configError, [])) ∧
    (∀ r, env.AWS_DEFAULT_REGION = some r → pre_check env = Except.ok ()) := by
  constructor
  · intro h
    have hp : pre_check env = Except.error () := by simp [pre_check, h]
    exact ⟨hp, fun oldName newName fs toks cr fr crr => by simp [main, hp]⟩
  · intro r h
    simp [pre_check, h]

/-- Witness for the amended C7: a missing region is fatal, while missing
credentials alone pass the pre-check. -/
theorem pre_check_region_only_witness :
    pre_check envNoRegion = Except.error () ∧ pre_check envNoCreds = Except.ok () :=
  ⟨((pre_check_region_only envNoRegion).1 rfl).1,
   (pre_check_region_only envNoCreds).2 "us-east-1" rfl⟩

end CloneLC

namespace CloneLC

/-- C8: a run whose fetch returns no match exits with the fetch-failure
status, and the create call is never made. -/
theorem fetch_no_match_aborts_before_create (env : Env) (oldName newName : String)
    (fs : String → Option String) (toks : List CliTok) (a : Args)
    (crr : LaunchConfiguration → Except Unit Unit)
    (hp : parse_cli env oldName newName fs toks = Except.ok a) :
    main env oldName newName fs toks (Except.ok ()) (Except.ok []) crr =
      (Outcome.fetchError, [Action.connect, Action.fetch]) ∧
    Action.create ∉
      (main env oldName newName fs toks (Except.ok ()) (Except.ok []) crr).2 := by
  obtain ⟨r, hr⟩ : ∃ r, env.AWS_DEFAULT_REGION = some r := by
    cases h : env.AWS_DEFAULT_REGION with
    | none => simp [parse_cli, h] at hp
    | some r => exact ⟨r, rfl⟩
  have hm : main env oldName newName fs toks (Except.ok ()) (Except.ok []) crr =
      (Outcome.fetchError, [Action.connect, Action.fetch]) := by
    simp [main, pre_check, hr, hp, get_lc]
  exact ⟨hm, by simp [hm]⟩

/-- Witness for C8: an empty fetch result on a run with no overrides. -/
theorem fetch_no_match_aborts_before_create_witness :
    main envFull "lc-v1" "lc-v2" fsEmpty [] (Except.ok ()) (Except.ok [])
      (fun _ => Except.ok ()) = (Outcome.fetchError, [Action.connect, Action.fetch]) :=
  (fetch_no_match_aborts_before_create envFull "lc-v1" "lc-v2" fsEmpty [] argsUnset
    (fun _ => Except.ok ()) rfl).1

/-- C9: with `AWS_DEFAULT_REGION` unset every run is fatal before any
external action — `pre_check` exits, and even a command line passing
`--region` cannot help, since building the parser already reads the
variable for the `--region` default. -/
theorem missing_region_env_fatal (env : Env) (oldName newName : String)
    (fs : String → Option String) (toks : List CliTok) (r : String)
    (cr : Except Unit Unit) (fr : Except Unit (List LaunchConfiguration))
    (crr : LaunchConfiguration → Except Unit Unit)
    (h : env.AWS_DEFAULT_REGION = none) :
    main env oldName newName fs toks cr fr crr = (Outcome.configError, []) ∧
    parse_cli env oldName newName fs (CliTok.region r :: toks) =
      Except.error CliError.missingRegionEnv := by
  constructor
  · simp [main, pre_check, h]
  · simp [parse_cli, h]

/-- Witness for C9: a run without the region variable, `--region` passed. -/
theorem missing_region_env_fatal_witness :
    main envNoRegion "lc-v1" "lc-v2" fsEmpty [] (Except.ok ()) (Except.ok [lcA])
      (fun _ => Except.ok ()) = (Outcome.configError, []) ∧
    parse_cli envNoRegion "lc-v1" "lc-v2" fsEmpty [CliTok.region "us-west-2"] =
      Except.error CliError.missingRegionEnv :=
  missing_region_env_fatal envNoRegion "lc-v1" "lc-v2" fsEmpty [] "us-west-2"
    (Except.ok ()) (Except.ok [lcA]) (fun _ => Except.ok ()) rfl

/-- The constant an occurrence writes to the `instance_monitoring` dest,
if the token is one of that pair of `store_const` flags. -/
def monConst : CliTok → Option Bool
  | .enable_instance_monitoring => some true
  | .disable_instance_monitoring => some false
  | _ => none

/-- The constant an occurrence writes to the `ebs_optimized` dest. -/
def ebsConst : CliTok → Option Bool
  | .enable_ebs_optimized => some true
  | .disable_ebs_optimized => some false
  | _ => none

/-- The constant an occurrence writes to the
`associate_public_ip_address` dest. -/
def ipConst : CliTok → Option Bool
  | .enable_associate_public_ip_address => some true
  | .disable_associate_public_ip_address => some false
  | _ => none

/-- The six enable/disable boolean flags. -/
def isBoolFlag : CliTok → Bool
  | .enable_instance_monitoring => true
  | .disable_instance_monitoring => true
  | .enable_ebs_optimized => true
  | .disable_ebs_optimized => true
  | .enable_associate_public_ip_address => true
  | .disable_associate_public_ip_address => true
  | _ => false

/-- The pure effect of one token on the namespace, restricted to the
three `store_const` dests (other tokens leave them unchanged). -/
def flagStep (a : Args) : CliTok → Args
  | .enable_instance_monitoring => { a with instance_monitoring := some true }
  | .disable_instance_monitoring => { a with instance_monitoring := some false }
  | .enable_ebs_optimized => { a with ebs_optimized := some true }
  | .disable_ebs_optimized => { a with ebs_optimized := some false }
  | .enable_associate_public_ip_address => { a with associate_public_ip_address := some true }
  | .disable_associate_public_ip_address => { a with associate_public_ip_address := some false }
  | _ => a

/-- The value a slot holds after a sequence of writes `l` starting from
`d`: the last write when there is one, else `d`. -/
def lastSet (l : List Bool) (d : Option Bool) : Option Bool :=
  match l.getLast? with
  | some b => some b
  | none => d

theorem lastSet_cons (b : Bool) (l : List Bool) (d : Option Bool) :
    lastSet (b :: l) d = lastSet l (some b) := by
  cases l with
  | nil => simp [lastSet]
  | cons c l' =>
    obtain ⟨x, hx⟩ : ∃ x, (c :: l').getLast? = some x := by
      cases h : (c :: l').getLast? with
      | none => exact absurd h (by simp)
      | some x => exact ⟨x, rfl⟩
    simp [lastSet, List.getLast?_cons_cons, hx]

theorem flagFold_ok (fs : String → Option String) (toks : List CliTok) :
    ∀ a : Args, (∀ t ∈ toks, isBoolFlag t = true) →
      toks.foldlM (stepTok fs) a = Except.ok (toks.foldl flagStep a) := by
  induction toks with
  | nil => intro a _; rfl
  | cons t ts ih =>
    intro a h
    have ht : isBoolFlag t = true := h t (by simp)
    have hts : ∀ t' ∈ ts, isBoolFlag t' = true := fun t' h' => h t' (by simp [h'])
    cases t <;> simp [isBoolFlag] at ht <;>
      simpa [List.foldlM, List.foldl, stepTok, flagStep] using ih _ hts

theorem flagFold_mon (toks : List CliTok) :
    ∀ a : Args, (toks.foldl flagStep a).instance_monitoring =
      lastSet (toks.filterMap monConst) a.instance_monitoring := by
  induction toks with
  | nil => intro a; simp [lastSet]
  | cons t ts ih =>
    intro a
    cases t <;>
      simp [flagStep, List.filterMap_cons, monConst, lastSet_cons, ih]

theorem flagFold_ebs (toks : List CliTok) :
    ∀ a : Args, (toks.foldl flagStep a).ebs_optimized =
      lastSet (toks.filterMap ebsConst) a.ebs_optimized := by
  induction toks with
  | nil => intro a; simp [lastSet]
  | cons t ts ih =>
    intro a
    cases t <;>
      simp [flagStep, List.filterMap_cons, ebsConst, lastSet_cons, ih]

theorem flagFold_ip (toks : List CliTok) :
    ∀ a : Args, (toks.foldl flagStep a).associate_public_ip_address =
      lastSet (toks.filterMap ipConst) a.associate_public_ip_address := by
  induction toks with
  | nil => intro a; simp [lastSet]
  | cons t ts ih =>
    intro a
    cases t <;>
      simp [flagStep, List.filterMap_cons, ipConst, lastSet_cons, ih]

theorem lastSet_none (l : List Bool) : lastSet l none = l.getLast? := by
  cases h : l.getLast? <;> simp [lastSet, h]

/-- C10: a command line made of the enable/disable boolean flags always
parses successfully — conflicting flags for the same dest are no error —
and each of the three shared dests holds the constant of its last flag on
the line. -/
theorem conflicting_bool_flags_last_wins (env : Env) (reg oldName newName : String)
    (fs : String → Option String) (toks : List CliTok)
    (hreg : env.AWS_DEFAULT_REGION = some reg)
    (hflags : ∀ t ∈ toks, isBoolFlag t = true) :
    ∃ a, parse_cli env oldName newName fs toks = Except.ok a ∧
      a.instance_monitoring = (toks.filterMap monConst).getLast? ∧
      a.ebs_optimized = (toks.filterMap ebsConst).getLast? ∧
      a.associate_public_ip_address = (toks.filterMap ipConst).getLast? := by
  refine ⟨toks.foldl flagStep (initArgs oldName newName reg), ?_, ?_, ?_, ?_⟩
  · simp [parse_cli, hreg, flagFold_ok fs toks _ hflags]
  · rw [flagFold_mon]; simp [initArgs, lastSet_none]
  · rw [flagFold_ebs]; simp [initArgs, lastSet_none]
  · rw [flagFold_ip]; simp [initArgs, lastSet_none]

/-- Witness for C10: `--enable-instance-monitoring
--disable-instance-monitoring --disable-ebs-optimized
--enable-ebs-optimized` parses, monitoring ends explicitly off and EBS
optimization explicitly on. -/
theorem conflicting_bool_flags_last_wins_witness :
    ∃ a, parse_cli envFull "lc-v1" "lc-v2" fsEmpty
        [CliTok.enable_instance_monitoring, CliTok.disable_instance_monitoring,
         CliTok.disable_ebs_optimized, CliTok.enable_ebs_optimized] = Except.ok a ∧
      a.instance_monitoring = some false ∧ a.ebs_optimized = some true ∧
      a.associate_public_ip_address = none := by
  obtain ⟨a, h1, h2, h3, h4⟩ := conflicting_bool_flags_last_wins envFull "us-east-1"
    "lc-v1" "lc-v2" fsEmpty
    [CliTok.enable_instance_monitoring, CliTok.disable_instance_monitoring,
     CliTok.disable_ebs_optimized, CliTok.enable_ebs_optimized] rfl (by decide)
  refine ⟨a, h1, ?_, ?_, ?_⟩
  · rw [h2]; decide
  · rw [h3]; decide
  · rw [h4]; decide

end CloneLC
